import Mathlib

/-!
Shallow embedding of the fake-gcs-server core: the response-building layer
(fakestorage/response.go) and the bucket request handlers. Go structs become
Lean structures keeping their field names; the implicit encoding/json
marshaling of each struct is made explicit as a toJson function that follows
the struct tags (field order, the string option on sizes, omitempty rules).
Mutation of a slice argument is made explicit by returning the final value of
the argument alongside the result. Fallible operations return Except values,
and a process abort (Go panic) is a dedicated constructor of an outcome type.
-/

namespace fakestorage

/-- A minimal JSON value model, enough to state wire-shape properties:
which keys a marshaled body has, and whether a field is a string or a
bare number. -/
inductive Json where
  | null : Json
  | str (s : String) : Json
  | num (n : Int) : Json
  | bool (b : Bool) : Json
  | arr (xs : List Json) : Json
  | obj (fields : List (String × Json)) : Json

/-- Top-level field lookup in a marshaled JSON object, by key. -/
def Json.getField (j : Json) (k : String) : Option Json :=
  match j with
  | .obj fields => fields.lookup k
  | _ => none

/-- The top-level keys of a marshaled JSON object. -/
def Json.keys (j : Json) : Option (List String) :=
  match j with
  | .obj fields => some (fields.map Prod.fst)
  | _ => none

/-- Models a Go time.Time instant in UTC. The Go zero value is
January 1 of year 1, 00:00:00 UTC. -/
structure GoTime where
  year : Nat
  month : Nat
  day : Nat
  hour : Nat
  minute : Nat
  second : Nat
deriving DecidableEq, Repr

/-- The Go zero time.Time value. -/
def GoTime.zero : GoTime := ⟨1, 1, 1, 0, 0, 0⟩

def pad2 (n : Nat) : String :=
  if n < 10 then "0" ++ toString n else toString n

def pad4 (n : Nat) : String :=
  if n < 10 then "000" ++ toString n
  else if n < 100 then "00" ++ toString n
  else if n < 1000 then "0" ++ toString n
  else toString n

/-- Models Go t.Format(time.RFC3339) for a UTC instant: the fixed profile
YYYY-MM-DDTHH:MM:SSZ. Never returns the empty string. -/
def GoTime.formatRFC3339 (t : GoTime) : String :=
  pad4 t.year ++ "-" ++ pad2 t.month ++ "-" ++ pad2 t.day ++ "T" ++
    pad2 t.hour ++ ":" ++ pad2 t.minute ++ ":" ++ pad2 t.second ++ "Z"

/-- An ACL rule attached to an object: an (entity, role) pair, both
string-typed in the Go storage client library. -/
structure ACLRule where
  Entity : String
  Role : String
deriving DecidableEq, Repr

/-- The Object entity (fields used by response.go). Content is raw bytes,
modeled as a list of byte values. -/
structure Object where
  BucketName : String
  Name : String
  Content : List Nat
  ContentType : String
  ContentEncoding : String
  Crc32c : String
  Md5Hash : String
  ACL : List ACLRule
  Created : GoTime
  Updated : GoTime
  Deleted : GoTime
deriving DecidableEq, Repr

/-- Modelled from the spec: the method obj.id() is not among the given
source files; the spec requires a stable identifier derived
deterministically from the bucket and object name. -/
def Object.id (obj : Object) : String :=
  obj.BucketName ++ "/" ++ obj.Name

/-- storage.ObjectAccessControl from the Go storage API library, restricted
to the four fields this program sets. -/
structure ObjectAccessControl where
  Bucket : String
  Entity : String
  Object : String
  Role : String
deriving DecidableEq, Repr

/-- bucketResponse (response.go). -/
structure bucketResponse where
  Kind : String
  ID : String
  Name : String
deriving DecidableEq, Repr

/-- newBucketResponse (response.go). -/
def newBucketResponse (bucketName : String) : bucketResponse :=
  { Kind := "storage#bucket", ID := bucketName, Name := bucketName }

/-- Marshaling of bucketResponse per its json tags. -/
def bucketResponse.toJson (r : bucketResponse) : Json :=
  .obj [("kind", .str r.Kind), ("id", .str r.ID), ("name", .str r.Name)]

/-- objectResponse (response.go). Size is int64 in Go; its json tag carries
the string option, so it marshals as a decimal string (see toJson). -/
structure objectResponse where
  Kind : String
  Name : String
  ID : String
  Bucket : String
  Size : Int
  ContentType : String
  ContentEncoding : String
  Crc32c : String
  ACL : List ObjectAccessControl
  Md5Hash : String
  TimeCreated : String
  TimeDeleted : String
  Updated : String
deriving DecidableEq, Repr

/-- getAccessControlsListFromObject (response.go): one response entry per
ACL rule of the object, in order, carrying the bucket and object names. -/
def getAccessControlsListFromObject (obj : Object) : List ObjectAccessControl :=
  obj.ACL.map fun aclRule =>
    { Bucket := obj.BucketName
      Entity := aclRule.Entity
      Object := obj.Name
      Role := aclRule.Role }

/-- newObjectResponse (response.go). -/
def newObjectResponse (obj : Object) : objectResponse :=
  { Kind := "storage#object"
    ID := obj.id
    Bucket := obj.BucketName
    Name := obj.Name
    Size := (obj.Content.length : Int)
    ContentType := obj.ContentType
    ContentEncoding := obj.ContentEncoding
    Crc32c := obj.Crc32c
    Md5Hash := obj.Md5Hash
    ACL := getAccessControlsListFromObject obj
    TimeCreated := obj.Created.formatRFC3339
    TimeDeleted := obj.Deleted.formatRFC3339
    Updated := obj.Updated.formatRFC3339 }

/-- A string field with the omitempty json option: dropped when empty. -/
def optStrField (k : String) (v : String) : List (String × Json) :=
  if v = "" then [] else [(k, .str v)]

/-- Marshaling of ObjectAccessControl (the four fields this program sets). -/
def ObjectAccessControl.toJson (a : ObjectAccessControl) : Json :=
  .obj [("bucket", .str a.Bucket), ("entity", .str a.Entity),
        ("object", .str a.Object), ("role", .str a.Role)]

/-- Marshaling of objectResponse per its json tags: field order follows the
struct; size carries the string option so it marshals as a decimal string;
the omitempty fields are dropped when empty (for the acl slice: when it has
no elements). -/
def objectResponse.toJson (r : objectResponse) : Json :=
  .obj ([("kind", .str r.Kind), ("name", .str r.Name), ("id", .str r.ID),
         ("bucket", .str r.Bucket), ("size", .str (toString r.Size))]
    ++ optStrField "contentType" r.ContentType
    ++ optStrField "contentEncoding" r.ContentEncoding
    ++ optStrField "crc32c" r.Crc32c
    ++ (if r.ACL = [] then [] else [("acl", .arr (r.ACL.map ObjectAccessControl.toJson))])
    ++ optStrField "md5hash" r.Md5Hash
    ++ optStrField "timeCreated" r.TimeCreated
    ++ optStrField "timeDeleted" r.TimeDeleted
    ++ optStrField "updated" r.Updated)

/-- An item of the heterogeneous Items slice of listResponse (a Go
interface value holding either a bucket or an object response). -/
inductive ResponseItem where
  | bucket (b : bucketResponse) : ResponseItem
  | object (o : objectResponse) : ResponseItem
deriving DecidableEq, Repr

def ResponseItem.toJson : ResponseItem → Json
  | .bucket b => b.toJson
  | .object o => o.toJson

/-- The name field of a list item. -/
def ResponseItem.name : ResponseItem → String
  | .bucket b => b.Name
  | .object o => o.Name

/-- listResponse (response.go). Prefixes is a Go slice that may be nil;
none models the nil slice (which marshals as JSON null). -/
structure listResponse where
  Kind : String
  Items : List ResponseItem
  Prefixes : Option (List String)
deriving DecidableEq, Repr

def listResponse.toJson (r : listResponse) : Json :=
  .obj [("kind", .str r.Kind),
        ("items", .arr (r.Items.map ResponseItem.toJson)),
        ("prefixes", match r.Prefixes with
                     | none => .null
                     | some ps => .arr (ps.map Json.str))]

/-- Models Go sort.Strings: sorts a list of strings in increasing
lexicographic order (in place, on the caller slice). -/
def sortStrings (l : List String) : List String :=
  List.insertionSort (fun a b => a ≤ b) l

/-- newListBucketsResponse (response.go). The Go function sorts its
bucketNames slice argument in place before building the items; the
mutation is made explicit by also returning the final value of the
argument slice as the second component. -/
def newListBucketsResponse (bucketNames : List String) : listResponse × List String :=
  let sorted := sortStrings bucketNames
  ({ Kind := "storage#buckets"
     Items := sorted.map fun name => ResponseItem.bucket (newBucketResponse name)
     Prefixes := none },
   sorted)

/-- storage.ObjectAccessControls from the Go storage API library: the list
payload of an ACL list response (the HTTP-status bookkeeping field of the
library struct is not marshaled and is omitted here). -/
structure ObjectAccessControls where
  Items : List ObjectAccessControl
deriving DecidableEq, Repr

/-- aclListResponse (response.go): embeds a possibly-nil pointer to
ObjectAccessControls; none models the nil pointer, under which the items
collection is absent from the marshaled body. -/
structure aclListResponse where
  controls : Option ObjectAccessControls
deriving DecidableEq, Repr

/-- newACLListResponse (response.go): the zero response (nil embedded
pointer, no items) when the ACL of the object is empty, otherwise one
item per ACL entry. -/
def newACLListResponse (obj : Object) : aclListResponse :=
  if obj.ACL.length = 0 then { controls := none }
  else { controls := some { Items := getAccessControlsListFromObject obj } }

/-- The items collection carried by an ACL list response (empty when the
embedded pointer is nil). -/
def aclListResponse.items (r : aclListResponse) : List ObjectAccessControl :=
  match r.controls with
  | none => []
  | some c => c.Items

/-- rewriteResponse (response.go). TotalBytesRewritten and ObjectSize are
int64 with the string json option: they marshal as decimal strings. -/
structure rewriteResponse where
  Kind : String
  TotalBytesRewritten : Int
  ObjectSize : Int
  Done : Bool
  RewriteToken : String
  Resource : objectResponse
deriving DecidableEq, Repr

/-- newObjectRewriteResponse (response.go). -/
def newObjectRewriteResponse (obj : Object) : rewriteResponse :=
  { Kind := "storage#rewriteResponse"
    TotalBytesRewritten := (obj.Content.length : Int)
    ObjectSize := (obj.Content.length : Int)
    Done := true
    RewriteToken := ""
    Resource := newObjectResponse obj }

def rewriteResponse.toJson (r : rewriteResponse) : Json :=
  .obj [("kind", .str r.Kind),
        ("totalBytesRewritten", .str (toString r.TotalBytesRewritten)),
        ("objectSize", .str (toString r.ObjectSize)),
        ("done", .bool r.Done),
        ("rewriteToken", .str r.RewriteToken),
        ("resource", r.Resource.toJson)]

/-- apiError (response.go). -/
structure apiError where
  Domain : String
  Reason : String
  Message : String
deriving DecidableEq, Repr

def apiError.toJson (e : apiError) : Json :=
  .obj [("domain", .str e.Domain), ("reason", .str e.Reason),
        ("message", .str e.Message)]

/-- httpError (response.go). Errors is a Go slice with no omitempty;
none models the nil slice, which marshals as JSON null. -/
structure httpError where
  Code : Int
  Message : String
  Errors : Option (List apiError)
deriving DecidableEq, Repr

def httpError.toJson (e : httpError) : Json :=
  .obj [("code", .num e.Code), ("message", .str e.Message),
        ("errors", match e.Errors with
                   | none => .null
                   | some es => .arr (es.map apiError.toJson))]

/-- errorResponse (response.go): the Error Envelope. -/
structure errorResponse where
  Error : httpError
deriving DecidableEq, Repr

def errorResponse.toJson (e : errorResponse) : Json :=
  .obj [("error", e.Error.toJson)]

/-- newErrorResponse (response.go): the single Error Envelope constructor. -/
def newErrorResponse (code : Int) (message : String) (errs : Option (List apiError)) : errorResponse :=
  { Error := { Code := code, Message := message, Errors := errs } }

/-- The Bucket entity: a unique name and a versioning flag. -/
structure Bucket where
  name : String
  versioningEnabled : Bool
deriving DecidableEq, Repr

/-- The typed errors of the storage backend contract. -/
inductive BackendError where
  | notFound : BackendError
  | conflict : BackendError
  | invalidArgument : BackendError
  | internal : BackendError
deriving DecidableEq, Repr

/-- The Error() string of a backend error value (the backend
implementation is outside the given source files; the exact text is
immaterial to the properties below). -/
def BackendError.message : BackendError → String
  | .notFound => "not found"
  | .conflict => "conflict"
  | .invalidArgument => "invalid argument"
  | .internal => "internal error"

/-- Modelled from the spec: the in-memory bucket table of the storage
backend, whose implementation is not among the given source files. -/
structure Backend where
  buckets : List Bucket
deriving DecidableEq, Repr

/-- Modelled from the spec: backend CreateBucket creates the bucket if
absent, succeeds as a no-op if present with identical versioningEnabled,
and fails with a Conflict error if present with a differing
versioningEnabled. -/
def Backend.createBucket (b : Backend) (name : String) (versioningEnabled : Bool) :
    Except BackendError Backend :=
  match b.buckets.find? (fun bk => bk.name == name) with
  | none => .ok { buckets := b.buckets ++ [⟨name, versioningEnabled⟩] }
  | some bk =>
    if bk.versioningEnabled == versioningEnabled then .ok b
    else .error .conflict

/-- Modelled from the spec: backend GetBucket fails with NotFound if the
named bucket is absent. -/
def Backend.getBucket (b : Backend) (name : String) : Except BackendError Bucket :=
  match b.buckets.find? (fun bk => bk.name == name) with
  | none => .error .notFound
  | some bk => .ok bk

/-- Modelled from the spec: backend ListBuckets returns the bucket names
(the handler passes them to the response builder, which sorts them). -/
def Backend.listBucketNames (b : Backend) : List String :=
  b.buckets.map Bucket.name

/-- The outcome of an operation that may terminate the process: Go panic
is a dedicated constructor, distinct from any returned value. -/
inductive PanicOr (α : Type) where
  | panicked (e : BackendError) : PanicOr α
  | ok (a : α) : PanicOr α
deriving DecidableEq, Repr

/-- Server.CreateBucket (buckets handler file): calls the backend and
panics on any backend error. -/
def Server.CreateBucket (b : Backend) (name : String) (versioningEnabled : Bool) :
    PanicOr Backend :=
  match b.createBucket name versioningEnabled with
  | .error e => .panicked e
  | .ok b2 => .ok b2

/-- The body of an HTTP response written by a handler: either a marshaled
JSON value (json.NewEncoder(w).Encode) or plain text (http.Error, which
writes the message followed by a newline). -/
inductive Body where
  | json (j : Json) : Body
  | text (s : String) : Body

/-- bucketVersioning (request body shape). -/
structure bucketVersioning where
  enabled : Bool
deriving DecidableEq, Repr

/-- The anonymous request-body struct decoded by createBucketByPost:
a name and an optional versioning block (a nil pointer in Go). -/
structure BucketPostData where
  name : String
  versioning : Option bucketVersioning
deriving DecidableEq, Repr

/-- The versioning flag extracted by createBucketByPost: false when the
versioning block is absent. -/
def requestVersioning (d : BucketPostData) : Bool :=
  match d.versioning with
  | none => false
  | some v => v.enabled

/-- createBucketByPost (buckets handler file). The JSON decoding of the
request body and the backend call are modeled by their results, passed as
arguments: decoded is what decoder.Decode produced, createResult is what
s.backend.CreateBucket returned for (name, versioning). A decode failure
is answered with http.Error and status 400; a backend failure with
http.Error and status 500. The handler source passes the versioning flag
to the response builder as well, but the builder in response.go takes
only the bucket name, so the flag does not reach the response body. -/
def createBucketByPost (decoded : Except String BucketPostData)
    (createResult : Except BackendError Backend) : Nat × Body :=
  match decoded with
  | .error msg => (400, .text (msg ++ "\n"))
  | .ok data =>
    match createResult with
    | .error e => (500, .text (e.message ++ "\n"))
    | .ok _ => (200, .json (newBucketResponse data.name).toJson)

/-- listBuckets (buckets handler file), modeled on the result of
s.backend.ListBuckets(): a backend failure is answered with http.Error
and status 500; otherwise the bucket names go to the response builder.
The final (sorted) value of the names slice is returned alongside, as in
newListBucketsResponse. -/
def listBuckets (listResult : Except BackendError (List String)) :
    Nat × Body × List String :=
  match listResult with
  | .error e => (500, .text (e.message ++ "\n"), [])
  | .ok buckets =>
    let r := newListBucketsResponse buckets
    (200, .json r.1.toJson, r.2)

/-- getBucket (buckets handler file), modeled on the result of
s.backend.GetBucket(bucketName): on failure it writes status 404 and the
Error Envelope with code 404 and message Not found; on success, status
200 and the bucket response. The handler source passes the versioning
flag to the response builder as well, but the builder in response.go
takes only the bucket name. -/
def getBucket (getResult : Except BackendError Bucket) : Nat × Body :=
  match getResult with
  | .error _ =>
    (404, .json (newErrorResponse 404 "Not found" none).toJson)
  | .ok bucket => (200, .json (newBucketResponse bucket.name).toJson)

/-- Whether a response body is a JSON object of the Error Envelope shape:
a single error field holding code (a number), message (a string) and
errors (a list, or null for a nil slice). -/
def isErrorEnvelopeBody : Body → Bool
  | .json (.obj [("error", .obj [("code", .num _), ("message", .str _), ("errors", e)])]) =>
    match e with
    | .arr _ => true
    | .null => true
    | _ => false
  | _ => false

/-- The code field of an Error Envelope body, when the body has the
envelope shape. -/
def envelopeCode : Body → Option Int
  | .json (.obj [("error", .obj [("code", .num c), ("message", .str _), ("errors", _)])]) =>
    some c
  | _ => none

/-- The message field of an Error Envelope body, when the body has the
envelope shape. -/
def envelopeMessage : Body → Option String
  | .json (.obj [("error", .obj [("code", .num _), ("message", .str m), ("errors", _)])]) =>
    some m
  | _ => none

/-- The top-level keys of a JSON body. -/
def bodyKeys : Body → Option (List String)
  | .json j => j.keys
  | .text _ => none

/-! Theorems. -/

lemma getAccessControls_length (obj : Object) :
    (getAccessControlsListFromObject obj).length = obj.ACL.length := by
  simp [getAccessControlsListFromObject]

lemma newListBucketsResponse_items_names (l : List String) :
    (newListBucketsResponse l).1.Items.map ResponseItem.name = sortStrings l := by
  simp [newListBucketsResponse, ResponseItem.name, newBucketResponse, List.map_map,
    Function.comp_def]

/-- Sample objects used by witness theorems. -/
def emptyAclObject : Object :=
  { BucketName := "bkt", Name := "obj", Content := [], ContentType := "",
    ContentEncoding := "", Crc32c := "", Md5Hash := "", ACL := [],
    Created := GoTime.zero, Updated := GoTime.zero, Deleted := GoTime.zero }

def sampleObject : Object :=
  { BucketName := "bkt", Name := "obj", Content := [104, 105],
    ContentType := "text/plain", ContentEncoding := "", Crc32c := "crc",
    Md5Hash := "md5", ACL := [⟨"user-a", "OWNER"⟩, ⟨"user-b", "READER"⟩],
    Created := ⟨2024, 5, 1, 12, 30, 45⟩, Updated := ⟨2024, 5, 2, 1, 2, 3⟩,
    Deleted := GoTime.zero }

lemma lookup_append_none {β : Type} (k : String) (l1 l2 : List (String × β))
    (h : l1.lookup k = none) : (l1 ++ l2).lookup k = l2.lookup k := by
  induction l1 with
  | nil => rfl
  | cons p t ih =>
    obtain ⟨k2, v⟩ := p
    rw [List.cons_append]
    simp only [List.lookup] at h ⊢
    cases hk : (k == k2) with
    | true => rw [hk] at h; simp at h
    | false => rw [hk] at h; exact ih h

lemma optStrField_lookup_none (k k2 v : String) (h : (k2 == k) = false) :
    (optStrField k v).lookup k2 = none := by
  unfold optStrField
  split
  · rfl
  · simp [List.lookup, h]

lemma lookup_skip_optStrField (k k2 v : String) (rest : List (String × Json))
    (h : (k2 == k) = false) :
    (optStrField k v ++ rest).lookup k2 = rest.lookup k2 :=
  lookup_append_none k2 _ rest (optStrField_lookup_none k k2 v h)

lemma lookup_skip_aclChunk (k2 : String) (acl : List ObjectAccessControl)
    (rest : List (String × Json)) (h : (k2 == "acl") = false) :
    ((if acl = [] then []
      else [("acl", Json.arr (acl.map ObjectAccessControl.toJson))]) ++ rest).lookup k2
      = rest.lookup k2 := by
  apply lookup_append_none
  split
  · rfl
  · simp [List.lookup, h]

lemma lookup_optStrField_hit (k v : String) (rest : List (String × Json))
    (h : ¬ v = "") :
    (optStrField k v ++ rest).lookup k = some (.str v) := by
  unfold optStrField
  rw [if_neg h]
  simp [List.lookup]

/-- C4: the bucket-list response lists the bucket names sorted
lexicographically ascending, whatever the input order; in particular the
input zeta, alpha, mid is listed alpha, mid, zeta. -/
theorem newListBucketsResponse_sorted (bucketNames : List String) :
    List.Sorted (· ≤ ·) ((newListBucketsResponse bucketNames).1.Items.map ResponseItem.name) ∧
    ((newListBucketsResponse bucketNames).1.Items.map ResponseItem.name).Perm bucketNames ∧
    (newListBucketsResponse ["zeta", "alpha", "mid"]).1.Items.map ResponseItem.name
      = ["alpha", "mid", "zeta"] := by
  refine ⟨?_, ?_, ?_⟩
  · rw [newListBucketsResponse_items_names]
    exact List.sorted_insertionSort _ _
  · rw [newListBucketsResponse_items_names]
    exact List.perm_insertionSort _ _
  · rw [newListBucketsResponse_items_names]
    simp +decide [sortStrings, List.insertionSort, List.orderedInsert,
      String.le_iff_toList_le]

/-- C3 counterexample: newListBucketsResponse does not leave its input
list in its original order; the Go function sorts the argument slice in
place, so for the input zeta, alpha the argument ends up alpha, zeta. -/
theorem newListBucketsResponse_mutates_input :
    (newListBucketsResponse ["zeta", "alpha"]).2 ≠ ["zeta", "alpha"] := by
  simp +decide [newListBucketsResponse, sortStrings, List.insertionSort,
    List.orderedInsert, String.le_iff_toList_le]

/-- C3 amended: newListBucketsResponse leaves its input list sorted
lexicographically ascending (a permutation of the original contents, not
the original order), and its items are exactly the bucket responses of
the final (sorted) value of the argument; equal inputs give equal
results, which is definitional in this pure embedding. -/
theorem newListBucketsResponse_final_argument_state (bucketNames : List String) :
    (newListBucketsResponse bucketNames).2.Perm bucketNames ∧
    List.Sorted (· ≤ ·) (newListBucketsResponse bucketNames).2 ∧
    (newListBucketsResponse bucketNames).1.Items =
      (newListBucketsResponse bucketNames).2.map
        (fun name => ResponseItem.bucket (newBucketResponse name)) := by
  exact ⟨List.perm_insertionSort _ _, List.sorted_insertionSort _ _, rfl⟩

/-- C5: an object with an empty ACL entry list renders an ACL list
response with the items collection absent (the zero response, no
placeholder entry); with a non-empty ACL the response carries exactly one
item per ACL entry. -/
theorem newACLListResponse_empty_or_per_entry (obj : Object) :
    (obj.ACL = [] → (newACLListResponse obj).controls = none) ∧
    (newACLListResponse obj).items.length = obj.ACL.length := by
  unfold newACLListResponse
  by_cases h : obj.ACL.length = 0
  · rw [if_pos h]
    exact ⟨fun _ => rfl, by simp [aclListResponse.items, h]⟩
  · rw [if_neg h]
    refine ⟨fun he => absurd (by simp [he]) h, ?_⟩
    simp [aclListResponse.items, getAccessControls_length]

/-- Witness for C5: a concrete object with no ACL entries gets the zero
response, and a concrete object with two ACL entries gets two items. -/
theorem newACLListResponse_witness :
    (newACLListResponse emptyAclObject).controls = none ∧
    (newACLListResponse sampleObject).items.length = sampleObject.ACL.length :=
  ⟨(newACLListResponse_empty_or_per_entry emptyAclObject).1 rfl,
   (newACLListResponse_empty_or_per_entry sampleObject).2⟩

/-- C10: the ACL conversion shared by the object response and the ACL
list response preserves length and order: entry i of the result carries
the entity and role of ACL entry i of the object, with the bucket and
object names. -/
theorem getAccessControls_preserves_order (obj : Object) (i : Nat)
    (h : i < obj.ACL.length) :
    (getAccessControlsListFromObject obj).length = obj.ACL.length ∧
    (getAccessControlsListFromObject obj)[i]? =
      some { Bucket := obj.BucketName
             Entity := (obj.ACL.get ⟨i, h⟩).Entity
             Object := obj.Name
             Role := (obj.ACL.get ⟨i, h⟩).Role } := by
  refine ⟨getAccessControls_length obj, ?_⟩
  unfold getAccessControlsListFromObject
  rw [List.getElem?_map, List.getElem?_eq_getElem h]
  rfl

/-- Witness for C10: at a concrete two-entry object, index 1 of the
conversion carries the second entity and role. -/
theorem getAccessControls_preserves_order_witness :
    (getAccessControlsListFromObject sampleObject).length = sampleObject.ACL.length ∧
    (getAccessControlsListFromObject sampleObject)[1]? =
      some { Bucket := "bkt", Entity := "user-b", Object := "obj", Role := "READER" } :=
  getAccessControls_preserves_order sampleObject 1 (by decide)

def sample500Object : Object :=
  { BucketName := "bkt", Name := "src", Content := List.replicate 500 7,
    ContentType := "", ContentEncoding := "", Crc32c := "", Md5Hash := "",
    ACL := [], Created := GoTime.zero, Updated := GoTime.zero,
    Deleted := GoTime.zero }

def sample1024Object : Object :=
  { BucketName := "bkt", Name := "big", Content := List.replicate 1024 7,
    ContentType := "", ContentEncoding := "", Crc32c := "", Md5Hash := "",
    ACL := [], Created := GoTime.zero, Updated := GoTime.zero,
    Deleted := GoTime.zero }

lemma optStrField_lookup_hit (k v : String) (h : ¬ v = "") :
    (optStrField k v).lookup k = some (.str v) := by
  unfold optStrField
  rw [if_neg h]
  simp [List.lookup]

lemma objectResponse_getField_timeCreated (r : objectResponse)
    (h : ¬ r.TimeCreated = "") :
    r.toJson.getField "timeCreated" = some (.str r.TimeCreated) := by
  unfold objectResponse.toJson Json.getField
  simp only [List.append_assoc]
  rw [lookup_append_none "timeCreated" _ _ (by simp [List.lookup]),
    lookup_skip_optStrField "contentType" "timeCreated" _ _ (by decide),
    lookup_skip_optStrField "contentEncoding" "timeCreated" _ _ (by decide),
    lookup_skip_optStrField "crc32c" "timeCreated" _ _ (by decide),
    lookup_skip_aclChunk "timeCreated" _ _ (by decide),
    lookup_skip_optStrField "md5hash" "timeCreated" _ _ (by decide),
    lookup_optStrField_hit "timeCreated" _ _ h]

lemma objectResponse_getField_timeDeleted (r : objectResponse)
    (h : ¬ r.TimeDeleted = "") :
    r.toJson.getField "timeDeleted" = some (.str r.TimeDeleted) := by
  unfold objectResponse.toJson Json.getField
  simp only [List.append_assoc]
  rw [lookup_append_none "timeDeleted" _ _ (by simp [List.lookup]),
    lookup_skip_optStrField "contentType" "timeDeleted" _ _ (by decide),
    lookup_skip_optStrField "contentEncoding" "timeDeleted" _ _ (by decide),
    lookup_skip_optStrField "crc32c" "timeDeleted" _ _ (by decide),
    lookup_skip_aclChunk "timeDeleted" _ _ (by decide),
    lookup_skip_optStrField "md5hash" "timeDeleted" _ _ (by decide),
    lookup_skip_optStrField "timeCreated" "timeDeleted" _ _ (by decide),
    lookup_optStrField_hit "timeDeleted" _ _ h]

lemma objectResponse_getField_updated (r : objectResponse)
    (h : ¬ r.Updated = "") :
    r.toJson.getField "updated" = some (.str r.Updated) := by
  unfold objectResponse.toJson Json.getField
  simp only [List.append_assoc]
  rw [lookup_append_none "updated" _ _ (by simp [List.lookup]),
    lookup_skip_optStrField "contentType" "updated" _ _ (by decide),
    lookup_skip_optStrField "contentEncoding" "updated" _ _ (by decide),
    lookup_skip_optStrField "crc32c" "updated" _ _ (by decide),
    lookup_skip_aclChunk "updated" _ _ (by decide),
    lookup_skip_optStrField "md5hash" "updated" _ _ (by decide),
    lookup_skip_optStrField "timeCreated" "updated" _ _ (by decide),
    lookup_skip_optStrField "timeDeleted" "updated" _ _ (by decide)]
  exact optStrField_lookup_hit "updated" _ h

set_option maxRecDepth 8192 in
/-- C7: the single-object response serializes its size field as a decimal
string equal to the content length, never as a bare JSON number; a
concrete object with content of length 1024 renders the string 1024. -/
theorem objectResponse_size_string (obj : Object) :
    (newObjectResponse obj).toJson.getField "size"
      = some (.str (toString ((obj.Content.length : Int)))) ∧
    (∀ n : Int, (newObjectResponse obj).toJson.getField "size" ≠ some (.num n)) ∧
    (newObjectResponse sample1024Object).toJson.getField "size"
      = some (.str "1024") := by
  have h1 : (newObjectResponse obj).toJson.getField "size"
      = some (.str (toString ((obj.Content.length : Int)))) := rfl
  refine ⟨h1, ?_, ?_⟩
  · intro n hn
    rw [h1] at hn
    exact Json.noConfusion (Option.some.inj hn)
  · rfl

set_option maxRecDepth 8192 in
/-- C6: the rewrite response reports totalBytesRewritten and objectSize
as the content length rendered as a decimal string, done true, an empty
rewriteToken, and the single-object response as resource; a concrete
object of content length 500 renders the string 500 for both sizes. -/
theorem rewriteResponse_fields (obj : Object) :
    (newObjectRewriteResponse obj).toJson.getField "totalBytesRewritten"
      = some (.str (toString ((obj.Content.length : Int)))) ∧
    (newObjectRewriteResponse obj).toJson.getField "objectSize"
      = some (.str (toString ((obj.Content.length : Int)))) ∧
    (newObjectRewriteResponse obj).Done = true ∧
    (newObjectRewriteResponse obj).RewriteToken = "" ∧
    (newObjectRewriteResponse obj).Resource = newObjectResponse obj ∧
    (newObjectRewriteResponse obj).toJson.getField "resource"
      = some (newObjectResponse obj).toJson ∧
    (newObjectRewriteResponse sample500Object).toJson.getField "totalBytesRewritten"
      = some (.str "500") ∧
    (newObjectRewriteResponse sample500Object).toJson.getField "objectSize"
      = some (.str "500") :=
  ⟨rfl, rfl, rfl, rfl, rfl, rfl, rfl, rfl⟩

/-- C9: a zero Deleted timestamp still yields a non-empty timeDeleted
string in the object response, the RFC 3339 rendering of the zero time,
rather than an omitted field; likewise for zero Created and Updated. -/
theorem objectResponse_zero_timestamps (obj : Object) :
    (obj.Deleted = GoTime.zero →
      (newObjectResponse obj).toJson.getField "timeDeleted"
        = some (.str "0001-01-01T00:00:00Z") ∧
      ("0001-01-01T00:00:00Z" : String) ≠ "") ∧
    (obj.Created = GoTime.zero →
      (newObjectResponse obj).toJson.getField "timeCreated"
        = some (.str "0001-01-01T00:00:00Z")) ∧
    (obj.Updated = GoTime.zero →
      (newObjectResponse obj).toJson.getField "updated"
        = some (.str "0001-01-01T00:00:00Z")) := by
  refine ⟨fun hd => ⟨?_, by decide⟩, fun hc => ?_, fun hu => ?_⟩
  · have h2 : (newObjectResponse obj).TimeDeleted = "0001-01-01T00:00:00Z" := by
      show obj.Deleted.formatRFC3339 = _
      rw [hd]
      rfl
    rw [objectResponse_getField_timeDeleted (newObjectResponse obj)
      (by rw [h2]; decide), h2]
  · have h2 : (newObjectResponse obj).TimeCreated = "0001-01-01T00:00:00Z" := by
      show obj.Created.formatRFC3339 = _
      rw [hc]
      rfl
    rw [objectResponse_getField_timeCreated (newObjectResponse obj)
      (by rw [h2]; decide), h2]
  · have h2 : (newObjectResponse obj).Updated = "0001-01-01T00:00:00Z" := by
      show obj.Updated.formatRFC3339 = _
      rw [hu]
      rfl
    rw [objectResponse_getField_updated (newObjectResponse obj)
      (by rw [h2]; decide), h2]

/-- Witness for C9: a concrete live object with all timestamps at the
zero value carries all three timestamp fields as the zero-time string. -/
theorem objectResponse_zero_timestamps_witness :
    ((newObjectResponse emptyAclObject).toJson.getField "timeDeleted"
        = some (.str "0001-01-01T00:00:00Z") ∧
      ("0001-01-01T00:00:00Z" : String) ≠ "") ∧
    (newObjectResponse emptyAclObject).toJson.getField "timeCreated"
        = some (.str "0001-01-01T00:00:00Z") ∧
    (newObjectResponse emptyAclObject).toJson.getField "updated"
        = some (.str "0001-01-01T00:00:00Z") :=
  ⟨(objectResponse_zero_timestamps emptyAclObject).1 rfl,
   (objectResponse_zero_timestamps emptyAclObject).2.1 rfl,
   (objectResponse_zero_timestamps emptyAclObject).2.2 rfl⟩

/-- C1 (code defect): with bucket b present with versioningEnabled false,
the backend returns a recoverable Conflict error for a re-create with
true, and Server.CreateBucket turns that error into a process abort
(panic) instead of passing it on as an error value. -/
theorem serverCreateBucket_panics_on_conflict :
    Backend.createBucket { buckets := [] } "b" false
      = .ok { buckets := [{ name := "b", versioningEnabled := false }] } ∧
    Backend.createBucket { buckets := [{ name := "b", versioningEnabled := false }] } "b" true
      = .error .conflict ∧
    Server.CreateBucket { buckets := [{ name := "b", versioningEnabled := false }] } "b" true
      = .panicked .conflict :=
  ⟨rfl, rfl, rfl⟩

/-- C2 counterexample: a malformed request body makes createBucketByPost
answer status 400 with a plain-text body written by http.Error, which
does not have the Error Envelope shape; so not every failure path routes
through the envelope constructor. -/
theorem createBucketByPost_failure_not_envelope :
    (createBucketByPost (.error "unexpected EOF") (.ok { buckets := [] })).1 = 400 ∧
    (createBucketByPost (.error "unexpected EOF") (.ok { buckets := [] })).2
      = .text "unexpected EOF\n" ∧
    isErrorEnvelopeBody
      (createBucketByPost (.error "unexpected EOF") (.ok { buckets := [] })).2 = false :=
  ⟨rfl, rfl, rfl⟩

/-- C2 amended: only the get-bucket not-found path produces the Error
Envelope; the failure paths of createBucketByPost (malformed input, 400;
backend error, 500) and of listBuckets (backend error, 500) emit
plain-text bodies via http.Error, never the envelope shape. -/
theorem handler_failure_bodies (msg : String) (e : BackendError)
    (d : BucketPostData) (cr : Except BackendError Backend) :
    createBucketByPost (.error msg) cr = (400, .text (msg ++ "\n")) ∧
    createBucketByPost (.ok d) (.error e) = (500, .text (e.message ++ "\n")) ∧
    (listBuckets (.error e)).1 = 500 ∧
    (listBuckets (.error e)).2.1 = .text (e.message ++ "\n") ∧
    getBucket (.error e) = (404, .json (newErrorResponse 404 "Not found" none).toJson) ∧
    isErrorEnvelopeBody (getBucket (.error e)).2 = true ∧
    isErrorEnvelopeBody (createBucketByPost (.error msg) cr).2 = false ∧
    isErrorEnvelopeBody (createBucketByPost (.ok d) (.error e)).2 = false ∧
    isErrorEnvelopeBody (listBuckets (.error e)).2.1 = false :=
  ⟨rfl, rfl, rfl, rfl, rfl, rfl, rfl, rfl, rfl⟩

/-- C8: a get-bucket request for a name absent from the backend returns
status 404 with the Error Envelope: code field 404, non-empty message,
and no other top-level field in the body. -/
theorem getBucket_missing_404 (b : Backend) (name : String)
    (h : b.buckets.find? (fun bk => bk.name == name) = none) :
    (getBucket (b.getBucket name)).1 = 404 ∧
    isErrorEnvelopeBody (getBucket (b.getBucket name)).2 = true ∧
    envelopeCode (getBucket (b.getBucket name)).2 = some 404 ∧
    envelopeMessage (getBucket (b.getBucket name)).2 = some "Not found" ∧
    ¬ ("Not found" : String) = "" ∧
    bodyKeys (getBucket (b.getBucket name)).2 = some ["error"] := by
  have hg : b.getBucket name = .error .notFound := by
    unfold Backend.getBucket
    rw [h]
  rw [hg]
  exact ⟨rfl, rfl, rfl, rfl, by decide, rfl⟩

/-- Witness for C8: requesting name missing from an empty backend. -/
theorem getBucket_missing_404_witness :
    (getBucket (Backend.getBucket { buckets := [] } "missing")).1 = 404 ∧
    isErrorEnvelopeBody (getBucket (Backend.getBucket { buckets := [] } "missing")).2 = true ∧
    envelopeCode (getBucket (Backend.getBucket { buckets := [] } "missing")).2 = some 404 ∧
    envelopeMessage (getBucket (Backend.getBucket { buckets := [] } "missing")).2
      = some "Not found" ∧
    ¬ ("Not found" : String) = "" ∧
    bodyKeys (getBucket (Backend.getBucket { buckets := [] } "missing")).2
      = some ["error"] :=
  getBucket_missing_404 { buckets := [] } "missing" rfl

end fakestorage
